import Mathlib

/-!
Verification of the path-bearing syscall handlers in
`src/sandbox/src/syscall/stat.rs` (agentfs).

Shallow embedding: each Rust handler becomes a pure Lean function from an
environment `Env` (mount-table resolution oracle, fd-table lookup oracle,
guest-memory read oracle, the guest-stack scratch addresses handed out by
successive `reserve` calls, and an oracle giving the kernel result of a
re-injected syscall) and the syscall's argument record to an
`Except Unit Out`.  `Out` carries the handler's return value
(`none` = pass-through sentinel, `some r` = final result forwarded to the
guest) together with the ordered trace of observable effects: VFS calls,
guest-memory writes, scratch reserves/commits, and syscall injections.
`Except.error` models the tracer-level error path taken when a guest-memory
read faults (the `?` propagation in the Rust).  Guest-memory writes are
recorded as effects and modelled as succeeding; the write-fault error path
is not exercised by any property proved here.

Paths and stat records are byte strings (`List Nat`).  The mount table's
`resolve` and the fd table's `translate` live outside the provided sources,
so they are abstract oracles in `Env`; the `Vfs` capability (spec §6.1) is a
structure of abstract operation fields.  `translate_path` (defined in
`src/sandbox/src/syscall/mod.rs`, not among the provided sources) is
modelled from the spec, see its doc comment.
-/

abbrev GPath := List Nat
abbrev Addr := Nat
abbrev StatRec := List Nat

deriving instance DecidableEq for Except

/-- The seven abstract VFS error kinds (spec §3; matched in `stat.rs` as
`crate::vfs::VfsError`). -/
inductive VfsError where
  | NotFound
  | PermissionDenied
  | AlreadyExists
  | NotADirectory
  | IsADirectory
  | InvalidArgument
  | IoError
  deriving DecidableEq, Repr

/-- The VFS capability contract consumed by the handlers (spec §6.1).
Operations are abstract function fields; `Except.error` is the `VfsError`
result. -/
structure Vfs where
  is_virtual : Bool
  stat : GPath → Except VfsError StatRec
  lstat : GPath → Except VfsError StatRec
  readlink : GPath → Except VfsError GPath
  symlink : GPath → GPath → Except VfsError Unit
  link : GPath → GPath → Except VfsError Unit

/-- Argument records and rewritten syscalls, mirroring the
`reverie::syscalls` builders used in `stat.rs`. -/
inductive Syscall where
  | statx (dirfd : Int) (path : Option Addr) (flags mask : Nat) (statxbuf : Option Addr)
  | newfstatat (dirfd : Int) (path : Option Addr) (stat : Option Addr) (flags : Nat)
  | statfs (path : Option Addr) (buf : Option Addr)
  | readlink (path : Option Addr) (buf : Option Addr) (bufsize : Nat)
  | readlinkat (dirfd : Int) (path : Option Addr) (buf : Option Addr) (buf_len : Nat)
  | symlink (target : Option Addr) (linkpath : Option Addr)
  | symlinkat (target : Option Addr) (newdirfd : Int) (linkpath : Option Addr)
  | linkat (olddirfd : Int) (oldpath : Option Addr) (newdirfd : Int) (newpath : Option Addr)
      (flags : Nat)
  deriving DecidableEq, Repr

/-- Observable effects a handler performs on the guest and the VFS, in
program order. -/
inductive Eff where
  | reserve (a : Addr)
  | commit
  | memWrite (a : Addr) (bytes : List Nat)
  | vfsStat (p : GPath)
  | vfsLstat (p : GPath)
  | vfsReadlink (p : GPath)
  | vfsSymlink (target linkpath : GPath)
  | vfsLink (oldp newp : GPath)
  | inject (s : Syscall)
  deriving DecidableEq, Repr

/-- A handler's outcome: the value returned to the tracer (`none` =
pass-through) and the effect trace. -/
structure Out where
  ret : Option Int
  effs : List Eff
  deriving DecidableEq, Repr

/-- Outcome of the `statfs` handler, whose tracer contract returns a
rewritten syscall rather than a final integer. -/
structure OutStatfs where
  ret : Option Syscall
  effs : List Eff
  deriving DecidableEq, Repr

/-- The handler's environment: mount-table resolution, fd-table lookup,
guest-memory reads, the addresses produced by successive scratch
reserves, and the kernel result of an injected syscall. -/
structure Env where
  resolve : GPath → Option (Vfs × GPath)
  fdTranslate : Int → Option Int
  readMem : Addr → Except Unit GPath
  scratch : List Addr
  injectResult : Syscall → Int

def scratch0 (env : Env) : Addr := env.scratch.getD 0 0

def scratch1 (env : Env) : Addr := env.scratch.getD 1 0

def ENOENT : Int := 2
def EPERM : Int := 1
def EACCES : Int := 13
def EEXIST : Int := 17
def EINVAL : Int := 22
def ENOSYS : Int := 38
def EIO_errno : Int := 5

def AT_FDCWD : Int := -100

def AT_SYMLINK_NOFOLLOW : Nat := 256

/-- Modelled from the spec: `translate_path` lives in
`src/sandbox/src/syscall/mod.rs`, which is not among the provided sources.
Spec §4.D: read the path at `path_addr`; run it through the mount table;
no match → `None`; virtual backend → `None` (virtual handling happens in
the handler before this function is consulted); real-filesystem redirect →
marshal the translated host path as a NUL-terminated byte sequence into
freshly allocated guest scratch and return its address.  The scratch
allocation is the handler invocation's first reserve, hence `scratch0`. -/
def translate_path (env : Env) (path_addr : Addr) : Except Unit (Option Addr × List Eff) :=
  match env.readMem path_addr with
  | .error e => .error e
  | .ok path =>
    match env.resolve path with
    | none => .ok (none, [])
    | some (vfs, translated) =>
      if vfs.is_virtual then .ok (none, [])
      else
        let a := scratch0 env
        .ok (some a, [.reserve a, .commit, .memWrite a (translated ++ [0])])

structure StatxArgs where
  dirfd : Int
  path : Option Addr
  flags : Nat
  mask : Nat
  statxbuf : Option Addr
  deriving DecidableEq, Repr

/-- The rewrite-and-reinject tail of `handle_statx` (`stat.rs` lines
45–55): translate the path; on `Some` inject the rebuilt `statx`, else
fall through to pass-through. -/
def statx_reinject (env : Env) (args : StatxArgs) (path_addr : Addr) (kernel_dirfd : Int) :
    Except Unit Out :=
  match translate_path env path_addr with
  | .error e => .error e
  | .ok (none, effs) => .ok ⟨none, effs⟩
  | .ok (some new_path_addr, effs) =>
    let s := Syscall.statx kernel_dirfd (some new_path_addr) args.flags args.mask args.statxbuf
    .ok ⟨some (env.injectResult s), effs ++ [.inject s]⟩

/-- `handle_statx` (`stat.rs` lines 17–58): virtualize the dirfd; read the
path; if it resolves to a virtual backend return `-ENOSYS` (caller falls
back to `newfstatat`); otherwise translate and re-inject, or pass
through. -/
def handle_statx (env : Env) (args : StatxArgs) : Except Unit Out :=
  let kernel_dirfd :=
    if args.dirfd = -100 then args.dirfd
    else (env.fdTranslate args.dirfd).getD args.dirfd
  match args.path with
  | none => .ok ⟨none, []⟩
  | some path_addr =>
    match env.readMem path_addr with
    | .error e => .error e
    | .ok path =>
      match env.resolve path with
      | some (vfs, _translated) =>
        if vfs.is_virtual then .ok ⟨some (-ENOSYS), []⟩
        else statx_reinject env args path_addr kernel_dirfd
      | none => statx_reinject env args path_addr kernel_dirfd

structure NewfstatatArgs where
  dirfd : Int
  path : Option Addr
  stat : Option Addr
  flags : Nat
  deriving DecidableEq, Repr

/-- The rewrite-and-reinject tail of `handle_newfstatat` (`stat.rs` lines
129–138). -/
def newfstatat_reinject (env : Env) (args : NewfstatatArgs) (path_addr : Addr)
    (kernel_dirfd : Int) : Except Unit Out :=
  match translate_path env path_addr with
  | .error e => .error e
  | .ok (none, effs) => .ok ⟨none, effs⟩
  | .ok (some new_path_addr, effs) =>
    let s := Syscall.newfstatat kernel_dirfd (some new_path_addr) args.stat args.flags
    .ok ⟨some (env.injectResult s), effs ++ [.inject s]⟩

/-- `handle_newfstatat` (`stat.rs` lines 67–141): virtualize the dirfd;
read the path; on a virtual mount call `stat` or `lstat` per
`AT_SYMLINK_NOFOLLOW`, copy the stat bytes to the guest buffer when one was
supplied and return 0, mapping VFS errors to negated errno
(`NotFound → -ENOENT`, `PermissionDenied → -EACCES`, all else `-EIO`);
otherwise translate and re-inject, or pass through. -/
def handle_newfstatat (env : Env) (args : NewfstatatArgs) : Except Unit Out :=
  let kernel_dirfd :=
    if args.dirfd = -100 then args.dirfd
    else (env.fdTranslate args.dirfd).getD args.dirfd
  match args.path with
  | none => .ok ⟨none, []⟩
  | some path_addr =>
    match env.readMem path_addr with
    | .error e => .error e
    | .ok path =>
      match env.resolve path with
      | some (vfs, _translated) =>
        if vfs.is_virtual then
          let follow_symlinks := args.flags &&& AT_SYMLINK_NOFOLLOW == 0
          let stat_result := if follow_symlinks then vfs.stat path else vfs.lstat path
          let vfsEff := if follow_symlinks then Eff.vfsStat path else Eff.vfsLstat path
          match stat_result with
          | .ok stat_buf =>
            match args.stat with
            | some stat_addr => .ok ⟨some 0, [vfsEff, .memWrite stat_addr stat_buf]⟩
            | none => .ok ⟨some 0, [vfsEff]⟩
          | .error e =>
            let errno : Int :=
              match e with
              | .NotFound => -ENOENT
              | .PermissionDenied => -EACCES
              | _ => -EIO_errno
            .ok ⟨some errno, [vfsEff]⟩
        else newfstatat_reinject env args path_addr kernel_dirfd
      | none => newfstatat_reinject env args path_addr kernel_dirfd

structure StatfsArgs where
  path : Option Addr
  buf : Option Addr
  deriving DecidableEq, Repr

/-- `handle_statfs` (`stat.rs` lines 146–159): translate the path; when a
translation exists, return the rewritten syscall for the tracer to emit;
otherwise pass through. -/
def handle_statfs (env : Env) (args : StatfsArgs) : Except Unit OutStatfs :=
  match args.path with
  | none => .ok ⟨none, []⟩
  | some path_addr =>
    match translate_path env path_addr with
    | .error e => .error e
    | .ok (none, effs) => .ok ⟨none, effs⟩
    | .ok (some new_path_addr, effs) =>
      .ok ⟨some (Syscall.statfs (some new_path_addr) args.buf), effs⟩

structure ReadlinkArgs where
  path : Option Addr
  buf : Option Addr
  bufsize : Nat
  deriving DecidableEq, Repr

/-- The rewrite-and-reinject tail of `handle_readlink` (`stat.rs` lines
209–217). -/
def readlink_reinject (env : Env) (args : ReadlinkArgs) (path_addr : Addr) :
    Except Unit Out :=
  match translate_path env path_addr with
  | .error e => .error e
  | .ok (none, effs) => .ok ⟨none, effs⟩
  | .ok (some new_path_addr, effs) =>
    let s := Syscall.readlink (some new_path_addr) args.buf args.bufsize
    .ok ⟨some (env.injectResult s), effs ++ [.inject s]⟩

/-- `handle_readlink` (`stat.rs` lines 165–220): on a virtual mount call
the backend's `readlink`; on success write the first
`min(len(target), bufsize)` bytes of the target into the guest buffer
(when one was supplied) and return that count, else return 0; VFS errors
map to `NotFound → -ENOENT`, `PermissionDenied → -EACCES`, all else
`-EINVAL`.  Otherwise translate and re-inject, or pass through.  The
target's `to_string_lossy` byte conversion is the identity here (targets
are byte strings). -/
def handle_readlink (env : Env) (args : ReadlinkArgs) : Except Unit Out :=
  match args.path with
  | none => .ok ⟨none, []⟩
  | some path_addr =>
    match env.readMem path_addr with
    | .error e => .error e
    | .ok path =>
      match env.resolve path with
      | some (vfs, _translated) =>
        if vfs.is_virtual then
          match vfs.readlink path with
          | .ok target =>
            match args.buf with
            | some buf_addr =>
              let bytes_to_write := min target.length args.bufsize
              .ok ⟨some (bytes_to_write : Int),
                   [.vfsReadlink path, .memWrite buf_addr (target.take bytes_to_write)]⟩
            | none => .ok ⟨some 0, [.vfsReadlink path]⟩
          | .error e =>
            let errno : Int :=
              match e with
              | .NotFound => -ENOENT
              | .PermissionDenied => -EACCES
              | _ => -EINVAL
            .ok ⟨some errno, [.vfsReadlink path]⟩
        else readlink_reinject env args path_addr
      | none => readlink_reinject env args path_addr

structure ReadlinkatArgs where
  dirfd : Int
  path : Option Addr
  buf : Option Addr
  buf_len : Nat
  deriving DecidableEq, Repr

/-- The rewrite-and-reinject tail of `handle_readlinkat` (`stat.rs` lines
279–288). -/
def readlinkat_reinject (env : Env) (args : ReadlinkatArgs) (path_addr : Addr)
    (kernel_dirfd : Int) : Except Unit Out :=
  match translate_path env path_addr with
  | .error e => .error e
  | .ok (none, effs) => .ok ⟨none, effs⟩
  | .ok (some new_path_addr, effs) =>
    let s := Syscall.readlinkat kernel_dirfd (some new_path_addr) args.buf args.buf_len
    .ok ⟨some (env.injectResult s), effs ++ [.inject s]⟩

/-- `handle_readlinkat` (`stat.rs` lines 226–291): as `handle_readlink`,
with the dirfd virtualized. -/
def handle_readlinkat (env : Env) (args : ReadlinkatArgs) : Except Unit Out :=
  let kernel_dirfd :=
    if args.dirfd = -100 then args.dirfd
    else (env.fdTranslate args.dirfd).getD args.dirfd
  match args.path with
  | none => .ok ⟨none, []⟩
  | some path_addr =>
    match env.readMem path_addr with
    | .error e => .error e
    | .ok path =>
      match env.resolve path with
      | some (vfs, _translated) =>
        if vfs.is_virtual then
          match vfs.readlink path with
          | .ok target =>
            match args.buf with
            | some buf_addr =>
              let bytes_to_write := min target.length args.buf_len
              .ok ⟨some (bytes_to_write : Int),
                   [.vfsReadlink path, .memWrite buf_addr (target.take bytes_to_write)]⟩
            | none => .ok ⟨some 0, [.vfsReadlink path]⟩
          | .error e =>
            let errno : Int :=
              match e with
              | .NotFound => -ENOENT
              | .PermissionDenied => -EACCES
              | _ => -EINVAL
            .ok ⟨some errno, [.vfsReadlink path]⟩
        else readlinkat_reinject env args path_addr kernel_dirfd
      | none => readlinkat_reinject env args path_addr kernel_dirfd

structure SymlinkArgs where
  target : Option Addr
  linkpath : Option Addr
  deriving DecidableEq, Repr

/-- The rewrite-and-reinject tail of `handle_symlink` (`stat.rs` lines
334–343): only the linkpath is translated; the injected syscall carries
the original target address. -/
def symlink_reinject (env : Env) (args : SymlinkArgs) (linkpath_addr : Addr) :
    Except Unit Out :=
  match translate_path env linkpath_addr with
  | .error e => .error e
  | .ok (none, effs) => .ok ⟨none, effs⟩
  | .ok (some new_linkpath_addr, effs) =>
    let s := Syscall.symlink args.target (some new_linkpath_addr)
    .ok ⟨some (env.injectResult s), effs ++ [.inject s]⟩

/-- `handle_symlink` (`stat.rs` lines 300–347): read linkpath and target;
on a virtual mount (matched on the linkpath) call the backend's
`symlink(target, linkpath)` with the target exactly as read, mapping VFS
errors to `NotFound → -ENOENT`, `PermissionDenied → -EACCES`,
`AlreadyExists → -EEXIST`, all else `-EIO`; otherwise translate only the
linkpath and re-inject, or pass through. -/
def handle_symlink (env : Env) (args : SymlinkArgs) : Except Unit Out :=
  match args.linkpath with
  | none => .ok ⟨none, []⟩
  | some linkpath_addr =>
    match env.readMem linkpath_addr with
    | .error e => .error e
    | .ok linkpath =>
      match args.target with
      | none => .ok ⟨none, []⟩
      | some target_addr =>
        match env.readMem target_addr with
        | .error e => .error e
        | .ok target =>
          match env.resolve linkpath with
          | some (vfs, _translated) =>
            if vfs.is_virtual then
              match vfs.symlink target linkpath with
              | .ok _ => .ok ⟨some 0, [.vfsSymlink target linkpath]⟩
              | .error e =>
                let errno : Int :=
                  match e with
                  | .NotFound => -ENOENT
                  | .PermissionDenied => -EACCES
                  | .AlreadyExists => -EEXIST
                  | _ => -EIO_errno
                .ok ⟨some errno, [.vfsSymlink target linkpath]⟩
            else symlink_reinject env args linkpath_addr
          | none => symlink_reinject env args linkpath_addr

structure SymlinkatArgs where
  target : Option Addr
  newdirfd : Int
  linkpath : Option Addr
  deriving DecidableEq, Repr

/-- The rewrite-and-reinject tail of `handle_symlinkat` (`stat.rs` lines
398–408). -/
def symlinkat_reinject (env : Env) (args : SymlinkatArgs) (linkpath_addr : Addr)
    (kernel_dirfd : Int) : Except Unit Out :=
  match translate_path env linkpath_addr with
  | .error e => .error e
  | .ok (none, effs) => .ok ⟨none, effs⟩
  | .ok (some new_linkpath_addr, effs) =>
    let s := Syscall.symlinkat args.target kernel_dirfd (some new_linkpath_addr)
    .ok ⟨some (env.injectResult s), effs ++ [.inject s]⟩

/-- `handle_symlinkat` (`stat.rs` lines 356–412): as `handle_symlink`,
with the new dirfd virtualized. -/
def handle_symlinkat (env : Env) (args : SymlinkatArgs) : Except Unit Out :=
  let kernel_dirfd :=
    if args.newdirfd = -100 then args.newdirfd
    else (env.fdTranslate args.newdirfd).getD args.newdirfd
  match args.linkpath with
  | none => .ok ⟨none, []⟩
  | some linkpath_addr =>
    match env.readMem linkpath_addr with
    | .error e => .error e
    | .ok linkpath =>
      match args.target with
      | none => .ok ⟨none, []⟩
      | some target_addr =>
        match env.readMem target_addr with
        | .error e => .error e
        | .ok target =>
          match env.resolve linkpath with
          | some (vfs, _translated) =>
            if vfs.is_virtual then
              match vfs.symlink target linkpath with
              | .ok _ => .ok ⟨some 0, [.vfsSymlink target linkpath]⟩
              | .error e =>
                let errno : Int :=
                  match e with
                  | .NotFound => -ENOENT
                  | .PermissionDenied => -EACCES
                  | .AlreadyExists => -EEXIST
                  | _ => -EIO_errno
                .ok ⟨some errno, [.vfsSymlink target linkpath]⟩
            else symlinkat_reinject env args linkpath_addr kernel_dirfd
          | none => symlinkat_reinject env args linkpath_addr kernel_dirfd

structure LinkatArgs where
  olddirfd : Int
  oldpath : Option Addr
  newdirfd : Int
  newpath : Option Addr
  flags : Nat
  deriving DecidableEq, Repr

/-- The translation dispatch of `handle_linkat` (`stat.rs` lines 469–550):
resolve both paths; when both match, reserve two scratch regions in one
combined commit, write both translated paths NUL-terminated, and inject
with both new addresses (the `CString::new` calls fail on an interior NUL
byte, propagating as a tracer-level error); when one matches, translate
that side only and keep the other address; when neither matches, pass
through. -/
def linkat_rewrite (env : Env) (args : LinkatArgs) (oldpath_addr newpath_addr : Addr)
    (oldpath newpath : GPath) (kernel_olddirfd kernel_newdirfd : Int) : Except Unit Out :=
  match env.resolve oldpath, env.resolve newpath with
  | some (_vfs1, translated_oldpath), some (_vfs2, translated_newpath) =>
    if translated_oldpath.contains 0 then .error ()
    else if translated_newpath.contains 0 then .error ()
    else
      let old_bytes := translated_oldpath ++ [0]
      let new_bytes := translated_newpath ++ [0]
      let old_addr := scratch0 env
      let new_addr := scratch1 env
      let s := Syscall.linkat kernel_olddirfd (some old_addr) kernel_newdirfd (some new_addr)
        args.flags
      .ok ⟨some (env.injectResult s),
           [.reserve old_addr, .reserve new_addr, .commit,
            .memWrite old_addr old_bytes, .memWrite new_addr new_bytes, .inject s]⟩
  | some _, none =>
    match translate_path env oldpath_addr with
    | .error e => .error e
    | .ok (none, effs) => .ok ⟨none, effs⟩
    | .ok (some new_oldpath_addr, effs) =>
      let s := Syscall.linkat kernel_olddirfd (some new_oldpath_addr) kernel_newdirfd
        (some newpath_addr) args.flags
      .ok ⟨some (env.injectResult s), effs ++ [.inject s]⟩
  | none, some _ =>
    match translate_path env newpath_addr with
    | .error e => .error e
    | .ok (none, effs) => .ok ⟨none, effs⟩
    | .ok (some new_newpath_addr, effs) =>
      let s := Syscall.linkat kernel_olddirfd (some oldpath_addr) kernel_newdirfd
        (some new_newpath_addr) args.flags
      .ok ⟨some (env.injectResult s), effs ++ [.inject s]⟩
  | none, none => .ok ⟨none, []⟩

/-- `handle_linkat` (`stat.rs` lines 420–554): virtualize both dirfds;
read both paths; when the newpath resolves to a virtual backend call
`link(oldpath, newpath)`, mapping VFS errors to `NotFound → -ENOENT`,
`PermissionDenied → -EPERM`, `AlreadyExists → -EEXIST`, all else `-EIO`;
otherwise dispatch on which of the two paths needs translation. -/
def handle_linkat (env : Env) (args : LinkatArgs) : Except Unit Out :=
  let kernel_olddirfd :=
    if args.olddirfd = -100 then args.olddirfd
    else (env.fdTranslate args.olddirfd).getD args.olddirfd
  let kernel_newdirfd :=
    if args.newdirfd = -100 then args.newdirfd
    else (env.fdTranslate args.newdirfd).getD args.newdirfd
  match args.oldpath with
  | none => .ok ⟨none, []⟩
  | some oldpath_addr =>
    match env.readMem oldpath_addr with
    | .error e => .error e
    | .ok oldpath =>
      match args.newpath with
      | none => .ok ⟨none, []⟩
      | some newpath_addr =>
        match env.readMem newpath_addr with
        | .error e => .error e
        | .ok newpath =>
          match env.resolve newpath with
          | some (vfs, _translated) =>
            if vfs.is_virtual then
              match vfs.link oldpath newpath with
              | .ok _ => .ok ⟨some 0, [.vfsLink oldpath newpath]⟩
              | .error e =>
                let errno : Int :=
                  match e with
                  | .NotFound => -ENOENT
                  | .PermissionDenied => -EPERM
                  | .AlreadyExists => -EEXIST
                  | _ => -EIO_errno
                .ok ⟨some errno, [.vfsLink oldpath newpath]⟩
            else
              linkat_rewrite env args oldpath_addr newpath_addr oldpath newpath
                kernel_olddirfd kernel_newdirfd
          | none =>
            linkat_rewrite env args oldpath_addr newpath_addr oldpath newpath
              kernel_olddirfd kernel_newdirfd

def retOf (r : Except Unit Out) : Except Unit (Option Int) := r.map Out.ret

def effsOf (r : Except Unit Out) : List Eff :=
  match r with
  | .error _ => []
  | .ok o => o.effs

def isMemWrite : Eff → Bool
  | .memWrite _ _ => true
  | _ => false

def hasMemWrite (effs : List Eff) : Bool := effs.any isMemWrite

def isVfsCall : Eff → Bool
  | .vfsStat _ => true
  | .vfsLstat _ => true
  | .vfsReadlink _ => true
  | .vfsSymlink _ _ => true
  | .vfsLink _ _ => true
  | _ => false

def hasVfsCall (effs : List Eff) : Bool := effs.any isVfsCall

def injectOf : Eff → Option Syscall
  | .inject s => some s
  | _ => none

def injectedSyscalls (r : Except Unit Out) : List Syscall := (effsOf r).filterMap injectOf

/-- The dirfd arguments carried by a (rewritten) syscall, in argument
order. -/
def Syscall.dirfds : Syscall → List Int
  | .statx d _ _ _ _ => [d]
  | .newfstatat d _ _ _ => [d]
  | .statfs _ _ => []
  | .readlink _ _ _ => []
  | .readlinkat d _ _ _ => [d]
  | .symlink _ _ => []
  | .symlinkat _ d _ => [d]
  | .linkat od _ nd _ _ => [od, nd]

/-- The target-address argument of a (rewritten) symlink-family syscall. -/
def Syscall.symTarget : Syscall → Option (Option Addr)
  | .symlink t _ => some t
  | .symlinkat t _ _ => some t
  | _ => none

/-- The dirfd virtualization every handler performs (spec §4.B together
with the `unwrap_or` at each call site in `stat.rs`): `AT_FDCWD` is
preserved; otherwise the fd table's translation when present, else the
input unchanged. -/
def kernelFd (env : Env) (fd : Int) : Int :=
  if fd = -100 then fd else (env.fdTranslate fd).getD fd

/-- The errno mapping the source applies to `newfstatat` VFS errors
(`stat.rs` lines 118–122): no `AlreadyExists` arm — it falls to `-EIO`. -/
def statErrnoMap : VfsError → Int
  | .NotFound => -ENOENT
  | .PermissionDenied => -EACCES
  | _ => -EIO_errno

/-- The errno mapping the source applies to `linkat` VFS errors
(`stat.rs` lines 457–462). -/
def linkErrnoMap : VfsError → Int
  | .NotFound => -ENOENT
  | .PermissionDenied => -EPERM
  | .AlreadyExists => -EEXIST
  | _ => -EIO_errno

/-- The errno mapping the source applies to `readlink`/`readlinkat` VFS
errors (`stat.rs` lines 198–202, 268–272): no `AlreadyExists` arm — it
falls to `-EINVAL`. -/
def readlinkErrnoMap : VfsError → Int
  | .NotFound => -ENOENT
  | .PermissionDenied => -EACCES
  | _ => -EINVAL

/-- The errno mapping the source applies to `symlink`/`symlinkat` VFS
errors (`stat.rs` lines 322–327, 386–391): the catch-all arm is `-EIO`,
not `-EINVAL`. -/
def symlinkErrnoMap : VfsError → Int
  | .NotFound => -ENOENT
  | .PermissionDenied => -EACCES
  | .AlreadyExists => -EEXIST
  | _ => -EIO_errno

/-- The VFS effect recorded for the stat-or-lstat selection in
`handle_newfstatat`. -/
def statEff (follow_symlinks : Bool) (p : GPath) : Eff :=
  if follow_symlinks then .vfsStat p else .vfsLstat p

/-- A concrete virtual backend whose operations all fail with a fixed
error, for instantiating the theorems at concrete inputs. -/
def vfsVirtErr (e : VfsError) : Vfs where
  is_virtual := true
  stat := fun _ => .error e
  lstat := fun _ => .error e
  readlink := fun _ => .error e
  symlink := fun _ _ => .error e
  link := fun _ _ => .error e

/-- A concrete virtual backend whose operations succeed with fixed
results; `readlink` yields the six bytes of `"target"`. -/
def vfsVirtOk : Vfs where
  is_virtual := true
  stat := fun _ => .ok [1, 2, 3, 4]
  lstat := fun _ => .ok [9, 8, 7]
  readlink := fun _ => .ok [116, 97, 114, 103, 101, 116]
  symlink := fun _ _ => .ok ()
  link := fun _ _ => .ok ()

/-- A concrete non-virtual (pure path-redirection) backend. -/
def vfsReal : Vfs where
  is_virtual := false
  stat := fun _ => .error .IoError
  lstat := fun _ => .error .IoError
  readlink := fun _ => .error .IoError
  symlink := fun _ _ => .error .IoError
  link := fun _ _ => .error .IoError

/-- A concrete environment whose mount table resolves every path to the
given backend with the given translated path, and whose guest memory
holds the given path bytes at every address. -/
def mkEnv (v : Vfs) (translated readp : GPath) : Env where
  resolve := fun _ => some (v, translated)
  fdTranslate := fun fd => if fd = 3 then some 33 else none
  readMem := fun _ => .ok readp
  scratch := [1000, 2000]
  injectResult := fun _ => 0

/-- A concrete environment whose mount table matches no path. -/
def envNoMount (readp : GPath) : Env where
  resolve := fun _ => none
  fdTranslate := fun fd => if fd = 3 then some 33 else none
  readMem := fun _ => .ok readp
  scratch := [1000, 2000]
  injectResult := fun _ => 0

/-- C3: a `statx` whose path resolves in the mount table to a backend with
`is_virtual() = true` returns exactly `-ENOSYS` (−38) with an empty effect
trace — the VFS is not invoked and no syscall is re-injected. -/
theorem statx_virtual_enosys (env : Env) (args : StatxArgs) (pa : Addr) (p : GPath)
    (vfs : Vfs) (tp : GPath)
    (hpath : args.path = some pa)
    (hread : env.readMem pa = Except.ok p)
    (hres : env.resolve p = some (vfs, tp))
    (hvirt : vfs.is_virtual = true) :
    handle_statx env args = Except.ok ⟨some (-38), []⟩ := by
  simp [handle_statx, hpath, hread, hres, hvirt, ENOSYS]

theorem statx_virtual_enosys_w :
    handle_statx (mkEnv (vfsVirtErr .NotFound) [47, 120] [47, 118]) ⟨-100, some 64, 0, 0, none⟩ =
      Except.ok ⟨some (-38), []⟩ :=
  statx_virtual_enosys _ _ 64 [47, 118] (vfsVirtErr .NotFound) [47, 120] rfl rfl rfl rfl

/-- C1 counterexample: with a virtual backend whose `stat` fails with
`AlreadyExists`, `newfstatat` returns `-EIO` (−5): the source's
`newfstatat` errno match has no `AlreadyExists` arm, so the claimed
`AlreadyExists → -EEXIST` (−17) mapping does not hold for the stat
family. -/
theorem errno_stat_link_map_cex :
    retOf (handle_newfstatat (mkEnv (vfsVirtErr .AlreadyExists) [47] [47, 118])
        ⟨-100, some 64, some 128, 0⟩) = Except.ok (some (-5)) ∧
      ((-5 : Int) ≠ (-17 : Int)) := by
  constructor
  · rfl
  · decide

/-- C1 (amended): for `newfstatat` and `linkat` served by a virtual
backend, a VFS error is converted to a negated errno: `NotFound → -ENOENT`;
`PermissionDenied → -EACCES` for stat and `-EPERM` for link; for `linkat`,
`AlreadyExists → -EEXIST`; every other kind — for `newfstatat` including
`AlreadyExists` — maps to `-EIO`; and on such an error the guest's stat
buffer is left unwritten. -/
theorem errno_stat_link_map :
    (∀ (env : Env) (args : NewfstatatArgs) (pa : Addr) (p : GPath) (vfs : Vfs)
        (tp : GPath) (e : VfsError),
      args.path = some pa →
      env.readMem pa = Except.ok p →
      env.resolve p = some (vfs, tp) →
      vfs.is_virtual = true →
      (if args.flags &&& AT_SYMLINK_NOFOLLOW == 0 then vfs.stat p else vfs.lstat p) =
          Except.error e →
      handle_newfstatat env args =
          Except.ok ⟨some (statErrnoMap e),
            [statEff (args.flags &&& AT_SYMLINK_NOFOLLOW == 0) p]⟩ ∧
        hasMemWrite (effsOf (handle_newfstatat env args)) = false) ∧
    (∀ (env : Env) (args : LinkatArgs) (opa npa : Addr) (op np : GPath) (vfs : Vfs)
        (tp : GPath) (e : VfsError),
      args.oldpath = some opa →
      args.newpath = some npa →
      env.readMem opa = Except.ok op →
      env.readMem npa = Except.ok np →
      env.resolve np = some (vfs, tp) →
      vfs.is_virtual = true →
      vfs.link op np = Except.error e →
      handle_linkat env args = Except.ok ⟨some (linkErrnoMap e), [.vfsLink op np]⟩ ∧
        hasMemWrite (effsOf (handle_linkat env args)) = false) := by
  constructor
  · intro env args pa p vfs tp e hpath hread hres hvirt herr
    have h1 : handle_newfstatat env args =
        Except.ok ⟨some (statErrnoMap e),
          [statEff (args.flags &&& AT_SYMLINK_NOFOLLOW == 0) p]⟩ := by
      simp only [handle_newfstatat, hpath, hread, hres, hvirt, if_true, herr]
      cases e <;> simp [statErrnoMap, statEff]
    refine ⟨h1, ?_⟩
    rw [h1]
    rcases hb : (args.flags &&& AT_SYMLINK_NOFOLLOW == 0) with _ | _ <;>
      simp [effsOf, hasMemWrite, statEff, isMemWrite, hb]
  · intro env args opa npa op np vfs tp e hop hnp hreado hreadn hres hvirt herr
    have h1 : handle_linkat env args =
        Except.ok ⟨some (linkErrnoMap e), [.vfsLink op np]⟩ := by
      simp only [handle_linkat, hop, hnp, hreado, hreadn, hres, hvirt, if_true, herr]
      cases e <;> simp [linkErrnoMap]
    refine ⟨h1, ?_⟩
    rw [h1]
    simp [effsOf, hasMemWrite, isMemWrite]

theorem errno_stat_link_map_w :
    (handle_newfstatat (mkEnv (vfsVirtErr .NotFound) [47] [47, 118])
        ⟨-100, some 64, some 128, 0⟩ =
      Except.ok ⟨some (-2), [Eff.vfsStat [47, 118]]⟩) ∧
    (handle_linkat (mkEnv (vfsVirtErr .PermissionDenied) [47] [47, 118])
        ⟨-100, some 64, -100, some 128, 0⟩ =
      Except.ok ⟨some (-1), [Eff.vfsLink [47, 118] [47, 118]]⟩) :=
  ⟨(errno_stat_link_map.1 (mkEnv (vfsVirtErr .NotFound) [47] [47, 118])
      ⟨-100, some 64, some 128, 0⟩ 64 [47, 118] (vfsVirtErr .NotFound) [47] .NotFound
      rfl rfl rfl rfl (by decide)).1,
   (errno_stat_link_map.2 (mkEnv (vfsVirtErr .PermissionDenied) [47] [47, 118])
      ⟨-100, some 64, -100, some 128, 0⟩ 64 128 [47, 118] [47, 118]
      (vfsVirtErr .PermissionDenied) [47] .PermissionDenied
      rfl rfl rfl rfl rfl rfl rfl).1⟩

/-- C2 counterexample: with a virtual backend whose `readlink` fails with
`AlreadyExists`, `readlink` returns `-EINVAL` (−22), not the `-EEXIST`
(−17) the claim's mapping prescribes (the source's readlink errno match
has no `AlreadyExists` arm); and with a backend whose `symlink` fails with
`IoError`, `symlink` returns `-EIO` (−5), not the claimed `-EINVAL`
(−22). -/
theorem errno_readlink_symlink_map_cex :
    retOf (handle_readlink (mkEnv (vfsVirtErr .AlreadyExists) [47] [47, 115])
        ⟨some 64, some 128, 16⟩) = Except.ok (some (-22)) ∧
      ((-22 : Int) ≠ (-17 : Int)) ∧
      retOf (handle_symlink (mkEnv (vfsVirtErr .IoError) [47] [47, 115])
          ⟨some 64, some 128⟩) = Except.ok (some (-5)) ∧
      ((-5 : Int) ≠ (-22 : Int)) := by
  refine ⟨rfl, by decide, rfl, by decide⟩

/-- C2 (amended): for `readlink`, `readlinkat`, `symlink`, and `symlinkat`
served by a virtual backend, a VFS error is converted to a negated errno
as follows.  For `readlink`/`readlinkat`: `NotFound → -ENOENT`,
`PermissionDenied → -EACCES`, every other kind — `AlreadyExists`
included — to `-EINVAL`.  For `symlink`/`symlinkat`:
`NotFound → -ENOENT`, `PermissionDenied → -EACCES`,
`AlreadyExists → -EEXIST`, every other kind to `-EIO`. -/
theorem errno_readlink_symlink_map :
    (∀ (env : Env) (args : ReadlinkArgs) (pa : Addr) (p : GPath) (vfs : Vfs)
        (tp : GPath) (e : VfsError),
      args.path = some pa →
      env.readMem pa = Except.ok p →
      env.resolve p = some (vfs, tp) →
      vfs.is_virtual = true →
      vfs.readlink p = Except.error e →
      handle_readlink env args = Except.ok ⟨some (readlinkErrnoMap e), [.vfsReadlink p]⟩) ∧
    (∀ (env : Env) (args : ReadlinkatArgs) (pa : Addr) (p : GPath) (vfs : Vfs)
        (tp : GPath) (e : VfsError),
      args.path = some pa →
      env.readMem pa = Except.ok p →
      env.resolve p = some (vfs, tp) →
      vfs.is_virtual = true →
      vfs.readlink p = Except.error e →
      handle_readlinkat env args = Except.ok ⟨some (readlinkErrnoMap e), [.vfsReadlink p]⟩) ∧
    (∀ (env : Env) (args : SymlinkArgs) (la ta : Addr) (lp tg : GPath) (vfs : Vfs)
        (tp : GPath) (e : VfsError),
      args.linkpath = some la →
      args.target = some ta →
      env.readMem la = Except.ok lp →
      env.readMem ta = Except.ok tg →
      env.resolve lp = some (vfs, tp) →
      vfs.is_virtual = true →
      vfs.symlink tg lp = Except.error e →
      handle_symlink env args = Except.ok ⟨some (symlinkErrnoMap e), [.vfsSymlink tg lp]⟩) ∧
    (∀ (env : Env) (args : SymlinkatArgs) (la ta : Addr) (lp tg : GPath) (vfs : Vfs)
        (tp : GPath) (e : VfsError),
      args.linkpath = some la →
      args.target = some ta →
      env.readMem la = Except.ok lp →
      env.readMem ta = Except.ok tg →
      env.resolve lp = some (vfs, tp) →
      vfs.is_virtual = true →
      vfs.symlink tg lp = Except.error e →
      handle_symlinkat env args = Except.ok ⟨some (symlinkErrnoMap e), [.vfsSymlink tg lp]⟩) := by
  refine ⟨?_, ?_, ?_, ?_⟩
  · intro env args pa p vfs tp e hpath hread hres hvirt herr
    simp only [handle_readlink, hpath, hread, hres, hvirt, if_true, herr]
    cases e <;> simp [readlinkErrnoMap]
  · intro env args pa p vfs tp e hpath hread hres hvirt herr
    simp only [handle_readlinkat, hpath, hread, hres, hvirt, if_true, herr]
    cases e <;> simp [readlinkErrnoMap]
  · intro env args la ta lp tg vfs tp e hla hta hreadl hreadt hres hvirt herr
    simp only [handle_symlink, hla, hta, hreadl, hreadt, hres, hvirt, if_true, herr]
    cases e <;> simp [symlinkErrnoMap]
  · intro env args la ta lp tg vfs tp e hla hta hreadl hreadt hres hvirt herr
    simp only [handle_symlinkat, hla, hta, hreadl, hreadt, hres, hvirt, if_true, herr]
    cases e <;> simp [symlinkErrnoMap]

theorem errno_readlink_symlink_map_w :
    (handle_readlink (mkEnv (vfsVirtErr .NotFound) [47] [47, 115]) ⟨some 64, some 128, 16⟩ =
      Except.ok ⟨some (-2), [Eff.vfsReadlink [47, 115]]⟩) ∧
    (handle_readlinkat (mkEnv (vfsVirtErr .PermissionDenied) [47] [47, 115])
        ⟨-100, some 64, some 128, 16⟩ =
      Except.ok ⟨some (-13), [Eff.vfsReadlink [47, 115]]⟩) ∧
    (handle_symlink (mkEnv (vfsVirtErr .AlreadyExists) [47] [47, 115]) ⟨some 32, some 64⟩ =
      Except.ok ⟨some (-17), [Eff.vfsSymlink [47, 115] [47, 115]]⟩) ∧
    (handle_symlinkat (mkEnv (vfsVirtErr .NotFound) [47] [47, 115]) ⟨some 32, -100, some 64⟩ =
      Except.ok ⟨some (-2), [Eff.vfsSymlink [47, 115] [47, 115]]⟩) :=
  ⟨errno_readlink_symlink_map.1 (mkEnv (vfsVirtErr .NotFound) [47] [47, 115])
      ⟨some 64, some 128, 16⟩ 64 [47, 115] (vfsVirtErr .NotFound) [47] .NotFound
      rfl rfl rfl rfl rfl,
   errno_readlink_symlink_map.2.1 (mkEnv (vfsVirtErr .PermissionDenied) [47] [47, 115])
      ⟨-100, some 64, some 128, 16⟩ 64 [47, 115] (vfsVirtErr .PermissionDenied) [47]
      .PermissionDenied rfl rfl rfl rfl rfl,
   errno_readlink_symlink_map.2.2.1 (mkEnv (vfsVirtErr .AlreadyExists) [47] [47, 115])
      ⟨some 32, some 64⟩ 64 32 [47, 115] [47, 115] (vfsVirtErr .AlreadyExists) [47]
      .AlreadyExists rfl rfl rfl rfl rfl rfl rfl,
   errno_readlink_symlink_map.2.2.2 (mkEnv (vfsVirtErr .NotFound) [47] [47, 115])
      ⟨some 32, -100, some 64⟩ 64 32 [47, 115] [47, 115] (vfsVirtErr .NotFound) [47]
      .NotFound rfl rfl rfl rfl rfl rfl rfl⟩

/-- C5: a `newfstatat` on a path in a virtual mount calls the backend's
`stat` when the flags do not contain `AT_SYMLINK_NOFOLLOW` and `lstat`
otherwise (witnessed by the recorded VFS effect), and on VFS success
copies the raw bytes of the returned stat record into the guest's stat
buffer and returns 0. -/
theorem newfstatat_virtual_success (env : Env) (args : NewfstatatArgs) (pa sa : Addr)
    (p : GPath) (vfs : Vfs) (tp : GPath) (sb : StatRec)
    (hpath : args.path = some pa)
    (hread : env.readMem pa = Except.ok p)
    (hres : env.resolve p = some (vfs, tp))
    (hvirt : vfs.is_virtual = true)
    (hstat : (if args.flags &&& AT_SYMLINK_NOFOLLOW == 0 then vfs.stat p else vfs.lstat p) =
      Except.ok sb)
    (hsa : args.stat = some sa) :
    handle_newfstatat env args =
      Except.ok ⟨some 0,
        [statEff (args.flags &&& AT_SYMLINK_NOFOLLOW == 0) p, .memWrite sa sb]⟩ := by
  simp only [handle_newfstatat, hpath, hread, hres, hvirt, if_true, hstat, hsa, statEff]

theorem newfstatat_virtual_success_w :
    handle_newfstatat (mkEnv vfsVirtOk [47] [47, 118]) ⟨-100, some 64, some 128, 0⟩ =
      Except.ok ⟨some 0, [Eff.vfsStat [47, 118], .memWrite 128 [1, 2, 3, 4]]⟩ :=
  newfstatat_virtual_success (mkEnv vfsVirtOk [47] [47, 118]) ⟨-100, some 64, some 128, 0⟩
    64 128 [47, 118] vfsVirtOk [47] [1, 2, 3, 4] rfl rfl rfl rfl (by decide) rfl

/-- C6: a `readlink` or `readlinkat` on a path in a virtual mount whose
backend `readlink` succeeds with target `t`, given a guest buffer of size
`bufsize`, writes exactly the first `min(len(t), bufsize)` bytes of `t`
into the guest buffer and returns `min(len(t), bufsize)`. -/
theorem readlink_virtual_truncation :
    (∀ (env : Env) (args : ReadlinkArgs) (pa ba : Addr) (p t : GPath) (vfs : Vfs)
        (tp : GPath),
      args.path = some pa →
      env.readMem pa = Except.ok p →
      env.resolve p = some (vfs, tp) →
      vfs.is_virtual = true →
      vfs.readlink p = Except.ok t →
      args.buf = some ba →
      handle_readlink env args =
        Except.ok ⟨some ((min t.length args.bufsize : Nat) : Int),
          [.vfsReadlink p, .memWrite ba (t.take (min t.length args.bufsize))]⟩) ∧
    (∀ (env : Env) (args : ReadlinkatArgs) (pa ba : Addr) (p t : GPath) (vfs : Vfs)
        (tp : GPath),
      args.path = some pa →
      env.readMem pa = Except.ok p →
      env.resolve p = some (vfs, tp) →
      vfs.is_virtual = true →
      vfs.readlink p = Except.ok t →
      args.buf = some ba →
      handle_readlinkat env args =
        Except.ok ⟨some ((min t.length args.buf_len : Nat) : Int),
          [.vfsReadlink p, .memWrite ba (t.take (min t.length args.buf_len))]⟩) := by
  constructor
  · intro env args pa ba p t vfs tp hpath hread hres hvirt hrl hba
    simp only [handle_readlink, hpath, hread, hres, hvirt, if_true, hrl, hba]
  · intro env args pa ba p t vfs tp hpath hread hres hvirt hrl hba
    simp only [handle_readlinkat, hpath, hread, hres, hvirt, if_true, hrl, hba]

theorem readlink_virtual_truncation_w :
    (handle_readlink (mkEnv vfsVirtOk [47] [47, 115]) ⟨some 64, some 128, 16⟩ =
      Except.ok ⟨some 6,
        [Eff.vfsReadlink [47, 115], .memWrite 128 [116, 97, 114, 103, 101, 116]]⟩) ∧
    (handle_readlinkat (mkEnv vfsVirtOk [47] [47, 115]) ⟨-100, some 64, some 128, 4⟩ =
      Except.ok ⟨some 4, [Eff.vfsReadlink [47, 115], .memWrite 128 [116, 97, 114, 103]]⟩) :=
  ⟨readlink_virtual_truncation.1 (mkEnv vfsVirtOk [47] [47, 115]) ⟨some 64, some 128, 16⟩
      64 128 [47, 115] [116, 97, 114, 103, 101, 116] vfsVirtOk [47] rfl rfl rfl rfl rfl rfl,
   readlink_virtual_truncation.2 (mkEnv vfsVirtOk [47] [47, 115]) ⟨-100, some 64, some 128, 4⟩
      64 128 [47, 115] [116, 97, 114, 103, 101, 116] vfsVirtOk [47] rfl rfl rfl rfl rfl rfl⟩

/-- C10: when a virtual-mount call succeeds but the guest supplied no
output buffer address, the handler returns 0 without writing guest
memory: virtual `readlink` and `readlinkat` with an absent buffer return
0 instead of the target length, and virtual `newfstatat` with an absent
stat address returns 0 without copying the stat record. -/
theorem null_buffer_returns_zero :
    (∀ (env : Env) (args : ReadlinkArgs) (pa : Addr) (p t : GPath) (vfs : Vfs)
        (tp : GPath),
      args.path = some pa →
      env.readMem pa = Except.ok p →
      env.resolve p = some (vfs, tp) →
      vfs.is_virtual = true →
      vfs.readlink p = Except.ok t →
      args.buf = none →
      handle_readlink env args = Except.ok ⟨some 0, [.vfsReadlink p]⟩) ∧
    (∀ (env : Env) (args : ReadlinkatArgs) (pa : Addr) (p t : GPath) (vfs : Vfs)
        (tp : GPath),
      args.path = some pa →
      env.readMem pa = Except.ok p →
      env.resolve p = some (vfs, tp) →
      vfs.is_virtual = true →
      vfs.readlink p = Except.ok t →
      args.buf = none →
      handle_readlinkat env args = Except.ok ⟨some 0, [.vfsReadlink p]⟩) ∧
    (∀ (env : Env) (args : NewfstatatArgs) (pa : Addr) (p : GPath) (vfs : Vfs)
        (tp : GPath) (sb : StatRec),
      args.path = some pa →
      env.readMem pa = Except.ok p →
      env.resolve p = some (vfs, tp) →
      vfs.is_virtual = true →
      (if args.flags &&& AT_SYMLINK_NOFOLLOW == 0 then vfs.stat p else vfs.lstat p) =
        Except.ok sb →
      args.stat = none →
      handle_newfstatat env args =
        Except.ok ⟨some 0, [statEff (args.flags &&& AT_SYMLINK_NOFOLLOW == 0) p]⟩) := by
  refine ⟨?_, ?_, ?_⟩
  · intro env args pa p t vfs tp hpath hread hres hvirt hrl hb
    simp only [handle_readlink, hpath, hread, hres, hvirt, if_true, hrl, hb]
  · intro env args pa p t vfs tp hpath hread hres hvirt hrl hb
    simp only [handle_readlinkat, hpath, hread, hres, hvirt, if_true, hrl, hb]
  · intro env args pa p vfs tp sb hpath hread hres hvirt hstat hsa
    simp only [handle_newfstatat, hpath, hread, hres, hvirt, if_true, hstat, hsa, statEff]

theorem null_buffer_returns_zero_w :
    (handle_readlink (mkEnv vfsVirtOk [47] [47, 115]) ⟨some 64, none, 16⟩ =
      Except.ok ⟨some 0, [Eff.vfsReadlink [47, 115]]⟩) ∧
    (handle_readlinkat (mkEnv vfsVirtOk [47] [47, 115]) ⟨-100, some 64, none, 16⟩ =
      Except.ok ⟨some 0, [Eff.vfsReadlink [47, 115]]⟩) ∧
    (handle_newfstatat (mkEnv vfsVirtOk [47] [47, 118]) ⟨-100, some 64, none, 0⟩ =
      Except.ok ⟨some 0, [Eff.vfsStat [47, 118]]⟩) :=
  ⟨null_buffer_returns_zero.1 (mkEnv vfsVirtOk [47] [47, 115]) ⟨some 64, none, 16⟩
      64 [47, 115] [116, 97, 114, 103, 101, 116] vfsVirtOk [47] rfl rfl rfl rfl rfl rfl,
   null_buffer_returns_zero.2.1 (mkEnv vfsVirtOk [47] [47, 115]) ⟨-100, some 64, none, 16⟩
      64 [47, 115] [116, 97, 114, 103, 101, 116] vfsVirtOk [47] rfl rfl rfl rfl rfl rfl,
   null_buffer_returns_zero.2.2 (mkEnv vfsVirtOk [47] [47, 118]) ⟨-100, some 64, none, 0⟩
      64 [47, 118] vfsVirtOk [47] [1, 2, 3, 4] rfl rfl rfl rfl (by decide) rfl⟩

/-- C7: an intercepted syscall all of whose path arguments resolve to
`None` in the mount table yields the pass-through sentinel (`none`) with
an empty effect trace — no VFS call, no guest-memory write, no re-injected
syscall; the original syscall runs unchanged.  Covers all eight handlers
(`statx`, `newfstatat`, `statfs`, `readlink`, `readlinkat`, `symlink`,
`symlinkat`, `linkat`). -/
theorem pass_through_no_effects :
    (∀ (env : Env) (args : StatxArgs) (pa : Addr) (p : GPath),
      args.path = some pa → env.readMem pa = Except.ok p → env.resolve p = none →
      handle_statx env args = Except.ok ⟨none, []⟩) ∧
    (∀ (env : Env) (args : NewfstatatArgs) (pa : Addr) (p : GPath),
      args.path = some pa → env.readMem pa = Except.ok p → env.resolve p = none →
      handle_newfstatat env args = Except.ok ⟨none, []⟩) ∧
    (∀ (env : Env) (args : StatfsArgs) (pa : Addr) (p : GPath),
      args.path = some pa → env.readMem pa = Except.ok p → env.resolve p = none →
      handle_statfs env args = Except.ok ⟨none, []⟩) ∧
    (∀ (env : Env) (args : ReadlinkArgs) (pa : Addr) (p : GPath),
      args.path = some pa → env.readMem pa = Except.ok p → env.resolve p = none →
      handle_readlink env args = Except.ok ⟨none, []⟩) ∧
    (∀ (env : Env) (args : ReadlinkatArgs) (pa : Addr) (p : GPath),
      args.path = some pa → env.readMem pa = Except.ok p → env.resolve p = none →
      handle_readlinkat env args = Except.ok ⟨none, []⟩) ∧
    (∀ (env : Env) (args : SymlinkArgs) (la ta : Addr) (lp tg : GPath),
      args.linkpath = some la → args.target = some ta →
      env.readMem la = Except.ok lp → env.readMem ta = Except.ok tg →
      env.resolve lp = none → env.resolve tg = none →
      handle_symlink env args = Except.ok ⟨none, []⟩) ∧
    (∀ (env : Env) (args : SymlinkatArgs) (la ta : Addr) (lp tg : GPath),
      args.linkpath = some la → args.target = some ta →
      env.readMem la = Except.ok lp → env.readMem ta = Except.ok tg →
      env.resolve lp = none → env.resolve tg = none →
      handle_symlinkat env args = Except.ok ⟨none, []⟩) ∧
    (∀ (env : Env) (args : LinkatArgs) (opa npa : Addr) (op np : GPath),
      args.oldpath = some opa → args.newpath = some npa →
      env.readMem opa = Except.ok op → env.readMem npa = Except.ok np →
      env.resolve op = none → env.resolve np = none →
      handle_linkat env args = Except.ok ⟨none, []⟩) := by
  refine ⟨?_, ?_, ?_, ?_, ?_, ?_, ?_, ?_⟩
  · intro env args pa p hpath hread hres
    simp only [handle_statx, statx_reinject, translate_path, hpath, hread, hres]
  · intro env args pa p hpath hread hres
    simp only [handle_newfstatat, newfstatat_reinject, translate_path, hpath, hread, hres]
  · intro env args pa p hpath hread hres
    simp only [handle_statfs, translate_path, hpath, hread, hres]
  · intro env args pa p hpath hread hres
    simp only [handle_readlink, readlink_reinject, translate_path, hpath, hread, hres]
  · intro env args pa p hpath hread hres
    simp only [handle_readlinkat, readlinkat_reinject, translate_path, hpath, hread, hres]
  · intro env args la ta lp tg hla hta hreadl hreadt hresl hrest
    simp only [handle_symlink, symlink_reinject, translate_path, hla, hta, hreadl, hreadt,
      hresl]
  · intro env args la ta lp tg hla hta hreadl hreadt hresl hrest
    simp only [handle_symlinkat, symlinkat_reinject, translate_path, hla, hta, hreadl,
      hreadt, hresl]
  · intro env args opa npa op np hop hnp hreado hreadn hreso hresn
    simp only [handle_linkat, linkat_rewrite, hop, hnp, hreado, hreadn, hreso, hresn]

theorem pass_through_no_effects_w :
    (handle_statx (envNoMount [47, 111]) ⟨-100, some 64, 0, 0, some 99⟩ =
      Except.ok ⟨none, []⟩) ∧
    (handle_linkat (envNoMount [47, 111]) ⟨-100, some 64, -100, some 128, 0⟩ =
      Except.ok ⟨none, []⟩) :=
  ⟨pass_through_no_effects.1 (envNoMount [47, 111]) ⟨-100, some 64, 0, 0, some 99⟩
      64 [47, 111] rfl rfl rfl,
   pass_through_no_effects.2.2.2.2.2.2.2 (envNoMount [47, 111])
      ⟨-100, some 64, -100, some 128, 0⟩ 64 128 [47, 111] [47, 111]
      rfl rfl rfl rfl rfl rfl⟩

/-- C8: a `linkat` where both paths resolve to non-virtual mounts reserves
two guest-stack scratch regions committed in one combined commit, writes
both translated paths NUL-terminated into them, and injects a `linkat`
carrying both new path addresses, both translated dirfds, and the
original flags. -/
theorem linkat_double_rewrite (env : Env) (args : LinkatArgs) (opa npa : Addr)
    (op np : GPath) (v1 : Vfs) (t_old : GPath) (v2 : Vfs) (t_new : GPath)
    (hop : args.oldpath = some opa)
    (hnp : args.newpath = some npa)
    (hreado : env.readMem opa = Except.ok op)
    (hreadn : env.readMem npa = Except.ok np)
    (hreso : env.resolve op = some (v1, t_old))
    (hresn : env.resolve np = some (v2, t_new))
    (hv1 : v1.is_virtual = false)
    (hv2 : v2.is_virtual = false)
    (hnul1 : t_old.contains 0 = false)
    (hnul2 : t_new.contains 0 = false) :
    handle_linkat env args =
      Except.ok ⟨some (env.injectResult (Syscall.linkat (kernelFd env args.olddirfd)
            (some (scratch0 env)) (kernelFd env args.newdirfd) (some (scratch1 env))
            args.flags)),
        [.reserve (scratch0 env), .reserve (scratch1 env), .commit,
         .memWrite (scratch0 env) (t_old ++ [0]), .memWrite (scratch1 env) (t_new ++ [0]),
         .inject (Syscall.linkat (kernelFd env args.olddirfd) (some (scratch0 env))
            (kernelFd env args.newdirfd) (some (scratch1 env)) args.flags)]⟩ := by
  simp only [handle_linkat, linkat_rewrite, kernelFd, hop, hnp, hreado, hreadn, hreso,
    hresn, hv1, hv2, hnul1, hnul2, Bool.false_eq_true, if_false]

theorem linkat_double_rewrite_w :
    handle_linkat (mkEnv vfsReal [47, 114] [47, 111]) ⟨-100, some 64, -100, some 128, 0⟩ =
      Except.ok ⟨some 0,
        [.reserve 1000, .reserve 2000, .commit,
         .memWrite 1000 [47, 114, 0], .memWrite 2000 [47, 114, 0],
         .inject (Syscall.linkat (-100) (some 1000) (-100) (some 2000) 0)]⟩ :=
  linkat_double_rewrite (mkEnv vfsReal [47, 114] [47, 111])
    ⟨-100, some 64, -100, some 128, 0⟩ 64 128 [47, 111] [47, 111] vfsReal [47, 114]
    vfsReal [47, 114] rfl rfl rfl rfl rfl rfl rfl rfl rfl rfl

/-- `translate_path` has exactly three outcome shapes: a propagated
guest-memory fault, no translation, or a fresh scratch address carrying
the NUL-terminated translated path. -/
theorem translate_path_cases (env : Env) (pa : Addr) :
    translate_path env pa = Except.error () ∨
    translate_path env pa = Except.ok (none, []) ∨
    ∃ tp : GPath, translate_path env pa =
      Except.ok (some (scratch0 env),
        [.reserve (scratch0 env), .commit, .memWrite (scratch0 env) (tp ++ [0])]) := by
  unfold translate_path
  rcases h : env.readMem pa with e | p
  · cases e
    exact Or.inl (by simp [h])
  · rcases h2 : env.resolve p with _ | ⟨vfs, tp⟩
    · exact Or.inr (Or.inl (by simp [h, h2]))
    · rcases hv : vfs.is_virtual with _ | _
      · exact Or.inr (Or.inr ⟨tp, by simp [h, h2, hv]⟩)
      · exact Or.inr (Or.inl (by simp [h, h2, hv]))

theorem statx_reinject_dirfds (env : Env) (args : StatxArgs) (pa : Addr) (kfd : Int)
    (s : Syscall) (hs : s ∈ injectedSyscalls (statx_reinject env args pa kfd)) :
    Syscall.dirfds s = [kfd] := by
  rcases translate_path_cases env pa with h | h | ⟨tp, h⟩ <;>
    simp [statx_reinject, h, injectedSyscalls, effsOf, injectOf] at hs
  subst hs
  rfl

theorem newfstatat_reinject_dirfds (env : Env) (args : NewfstatatArgs) (pa : Addr)
    (kfd : Int) (s : Syscall)
    (hs : s ∈ injectedSyscalls (newfstatat_reinject env args pa kfd)) :
    Syscall.dirfds s = [kfd] := by
  rcases translate_path_cases env pa with h | h | ⟨tp, h⟩ <;>
    simp [newfstatat_reinject, h, injectedSyscalls, effsOf, injectOf] at hs
  subst hs
  rfl

theorem readlinkat_reinject_dirfds (env : Env) (args : ReadlinkatArgs) (pa : Addr)
    (kfd : Int) (s : Syscall)
    (hs : s ∈ injectedSyscalls (readlinkat_reinject env args pa kfd)) :
    Syscall.dirfds s = [kfd] := by
  rcases translate_path_cases env pa with h | h | ⟨tp, h⟩ <;>
    simp [readlinkat_reinject, h, injectedSyscalls, effsOf, injectOf] at hs
  subst hs
  rfl

theorem symlinkat_reinject_dirfds (env : Env) (args : SymlinkatArgs) (la : Addr)
    (kfd : Int) (s : Syscall)
    (hs : s ∈ injectedSyscalls (symlinkat_reinject env args la kfd)) :
    Syscall.dirfds s = [kfd] := by
  rcases translate_path_cases env la with h | h | ⟨tp, h⟩ <;>
    simp [symlinkat_reinject, h, injectedSyscalls, effsOf, injectOf] at hs
  subst hs
  rfl

theorem linkat_rewrite_dirfds (env : Env) (args : LinkatArgs) (opa npa : Addr)
    (op np : GPath) (kold knew : Int) (s : Syscall)
    (hs : s ∈ injectedSyscalls (linkat_rewrite env args opa npa op np kold knew)) :
    Syscall.dirfds s = [kold, knew] := by
  unfold linkat_rewrite at hs
  rcases hro : env.resolve op with _ | ⟨v1, t_old⟩ <;>
    rcases hrn : env.resolve np with _ | ⟨v2, t_new⟩ <;>
    simp only [hro, hrn] at hs
  · simp [injectedSyscalls, effsOf] at hs
  · rcases translate_path_cases env npa with h | h | ⟨tp, h⟩ <;>
      simp [h, injectedSyscalls, effsOf, injectOf] at hs
    subst hs
    rfl
  · rcases translate_path_cases env opa with h | h | ⟨tp, h⟩ <;>
      simp [h, injectedSyscalls, effsOf, injectOf] at hs
    subst hs
    rfl
  · rcases hn1 : t_old.contains 0 with _ | _ <;> rw [hn1] at hs
    · rcases hn2 : t_new.contains 0 with _ | _ <;> rw [hn2] at hs
      · simp [injectedSyscalls, effsOf, injectOf] at hs
        subst hs
        rfl
      · simp [injectedSyscalls, effsOf] at hs
    · simp [injectedSyscalls, effsOf] at hs

theorem injectOf_statEff (b : Bool) (p : GPath) : injectOf (statEff b p) = none := by
  cases b <;> rfl

theorem handle_statx_dirfds (env : Env) (args : StatxArgs) (s : Syscall)
    (hs : s ∈ injectedSyscalls (handle_statx env args)) :
    Syscall.dirfds s = [kernelFd env args.dirfd] := by
  unfold kernelFd
  simp only [handle_statx] at hs
  generalize hk : (if args.dirfd = -100 then args.dirfd
    else (env.fdTranslate args.dirfd).getD args.dirfd) = k at hs ⊢
  split at hs
  · simp [injectedSyscalls, effsOf] at hs
  · split at hs
    · simp [injectedSyscalls, effsOf] at hs
    · split at hs
      · split at hs
        · simp [injectedSyscalls, effsOf] at hs
        · exact statx_reinject_dirfds _ _ _ _ _ hs
      · exact statx_reinject_dirfds _ _ _ _ _ hs

theorem handle_newfstatat_dirfds (env : Env) (args : NewfstatatArgs) (s : Syscall)
    (hs : s ∈ injectedSyscalls (handle_newfstatat env args)) :
    Syscall.dirfds s = [kernelFd env args.dirfd] := by
  unfold kernelFd
  simp only [handle_newfstatat] at hs
  generalize hk : (if args.dirfd = -100 then args.dirfd
    else (env.fdTranslate args.dirfd).getD args.dirfd) = k at hs ⊢
  split at hs
  · simp [injectedSyscalls, effsOf] at hs
  · split at hs
    · simp [injectedSyscalls, effsOf] at hs
    · split at hs
      · split at hs
        · repeat' split at hs
          all_goals simp [injectedSyscalls, effsOf, injectOf, apply_ite] at hs
        · exact newfstatat_reinject_dirfds _ _ _ _ _ hs
      · exact newfstatat_reinject_dirfds _ _ _ _ _ hs

theorem handle_readlinkat_dirfds (env : Env) (args : ReadlinkatArgs) (s : Syscall)
    (hs : s ∈ injectedSyscalls (handle_readlinkat env args)) :
    Syscall.dirfds s = [kernelFd env args.dirfd] := by
  unfold kernelFd
  simp only [handle_readlinkat] at hs
  generalize hk : (if args.dirfd = -100 then args.dirfd
    else (env.fdTranslate args.dirfd).getD args.dirfd) = k at hs ⊢
  split at hs
  · simp [injectedSyscalls, effsOf] at hs
  · split at hs
    · simp [injectedSyscalls, effsOf] at hs
    · split at hs
      · split at hs
        · repeat' split at hs
          all_goals simp [injectedSyscalls, effsOf, injectOf, apply_ite] at hs
        · exact readlinkat_reinject_dirfds _ _ _ _ _ hs
      · exact readlinkat_reinject_dirfds _ _ _ _ _ hs

theorem handle_symlinkat_dirfds (env : Env) (args : SymlinkatArgs) (s : Syscall)
    (hs : s ∈ injectedSyscalls (handle_symlinkat env args)) :
    Syscall.dirfds s = [kernelFd env args.newdirfd] := by
  unfold kernelFd
  simp only [handle_symlinkat] at hs
  generalize hk : (if args.newdirfd = -100 then args.newdirfd
    else (env.fdTranslate args.newdirfd).getD args.newdirfd) = k at hs ⊢
  split at hs
  · simp [injectedSyscalls, effsOf] at hs
  · split at hs
    · simp [injectedSyscalls, effsOf] at hs
    · split at hs
      · simp [injectedSyscalls, effsOf] at hs
      · split at hs
        · simp [injectedSyscalls, effsOf] at hs
        · split at hs
          · split at hs
            · repeat' split at hs
              all_goals simp [injectedSyscalls, effsOf, injectOf, apply_ite] at hs
            · exact symlinkat_reinject_dirfds _ _ _ _ _ hs
          · exact symlinkat_reinject_dirfds _ _ _ _ _ hs

theorem handle_linkat_dirfds (env : Env) (args : LinkatArgs) (s : Syscall)
    (hs : s ∈ injectedSyscalls (handle_linkat env args)) :
    Syscall.dirfds s = [kernelFd env args.olddirfd, kernelFd env args.newdirfd] := by
  unfold kernelFd
  simp only [handle_linkat] at hs
  generalize hk1 : (if args.olddirfd = -100 then args.olddirfd
    else (env.fdTranslate args.olddirfd).getD args.olddirfd) = kold at hs ⊢
  generalize hk2 : (if args.newdirfd = -100 then args.newdirfd
    else (env.fdTranslate args.newdirfd).getD args.newdirfd) = knew at hs ⊢
  split at hs
  · simp [injectedSyscalls, effsOf] at hs
  · split at hs
    · simp [injectedSyscalls, effsOf] at hs
    · split at hs
      · simp [injectedSyscalls, effsOf] at hs
      · split at hs
        · simp [injectedSyscalls, effsOf] at hs
        · split at hs
          · split at hs
            · repeat' split at hs
              all_goals simp [injectedSyscalls, effsOf, injectOf, apply_ite] at hs
            · exact linkat_rewrite_dirfds _ _ _ _ _ _ _ _ _ hs
          · exact linkat_rewrite_dirfds _ _ _ _ _ _ _ _ _ hs

/-- C4: every "*at" handler (`statx`, `newfstatat`, `readlinkat`,
`symlinkat`, and both dirfds of `linkat`) carries, in any syscall it
re-injects, the virtualized dirfd `kernelFd`: a dirfd equal to
`AT_FDCWD` (−100) is preserved exactly; any other dirfd is replaced by
the FD table's translation when the fd is present in the table, and is
otherwise passed through unchanged. -/
theorem dirfd_translation :
    (∀ (env : Env) (args : StatxArgs) (s : Syscall),
      s ∈ injectedSyscalls (handle_statx env args) →
      Syscall.dirfds s = [kernelFd env args.dirfd]) ∧
    (∀ (env : Env) (args : NewfstatatArgs) (s : Syscall),
      s ∈ injectedSyscalls (handle_newfstatat env args) →
      Syscall.dirfds s = [kernelFd env args.dirfd]) ∧
    (∀ (env : Env) (args : ReadlinkatArgs) (s : Syscall),
      s ∈ injectedSyscalls (handle_readlinkat env args) →
      Syscall.dirfds s = [kernelFd env args.dirfd]) ∧
    (∀ (env : Env) (args : SymlinkatArgs) (s : Syscall),
      s ∈ injectedSyscalls (handle_symlinkat env args) →
      Syscall.dirfds s = [kernelFd env args.newdirfd]) ∧
    (∀ (env : Env) (args : LinkatArgs) (s : Syscall),
      s ∈ injectedSyscalls (handle_linkat env args) →
      Syscall.dirfds s = [kernelFd env args.olddirfd, kernelFd env args.newdirfd]) ∧
    (∀ env : Env, kernelFd env AT_FDCWD = AT_FDCWD) ∧
    (∀ (env : Env) (fd k : Int), fd ≠ AT_FDCWD → env.fdTranslate fd = some k →
      kernelFd env fd = k) ∧
    (∀ (env : Env) (fd : Int), fd ≠ AT_FDCWD → env.fdTranslate fd = none →
      kernelFd env fd = fd) := by
  refine ⟨handle_statx_dirfds, handle_newfstatat_dirfds, handle_readlinkat_dirfds,
    handle_symlinkat_dirfds, handle_linkat_dirfds, ?_, ?_, ?_⟩
  · intro env
    simp [kernelFd, AT_FDCWD]
  · intro env fd k hne htr
    simp [kernelFd, AT_FDCWD] at hne ⊢
    simp [hne, htr]
  · intro env fd hne htr
    simp [kernelFd, AT_FDCWD] at hne ⊢
    simp [hne, htr]

theorem dirfd_translation_w :
    Syscall.dirfds (Syscall.statx 33 (some 1000) 5 6 (some 99)) =
      [kernelFd (mkEnv vfsReal [47, 114] [47, 111]) 3] :=
  dirfd_translation.1 (mkEnv vfsReal [47, 114] [47, 111]) ⟨3, some 64, 5, 6, some 99⟩
    (Syscall.statx 33 (some 1000) 5 6 (some 99)) (by decide)

theorem symlink_reinject_symTarget (env : Env) (args : SymlinkArgs) (la : Addr)
    (s : Syscall) (hs : s ∈ injectedSyscalls (symlink_reinject env args la)) :
    Syscall.symTarget s = some args.target := by
  rcases translate_path_cases env la with h | h | ⟨tp, h⟩ <;>
    simp [symlink_reinject, h, injectedSyscalls, effsOf, injectOf] at hs
  subst hs
  rfl

theorem symlinkat_reinject_symTarget (env : Env) (args : SymlinkatArgs) (la : Addr)
    (kfd : Int) (s : Syscall)
    (hs : s ∈ injectedSyscalls (symlinkat_reinject env args la kfd)) :
    Syscall.symTarget s = some args.target := by
  rcases translate_path_cases env la with h | h | ⟨tp, h⟩ <;>
    simp [symlinkat_reinject, h, injectedSyscalls, effsOf, injectOf] at hs
  subst hs
  rfl

theorem handle_symlink_symTarget (env : Env) (args : SymlinkArgs) (s : Syscall)
    (hs : s ∈ injectedSyscalls (handle_symlink env args)) :
    Syscall.symTarget s = some args.target := by
  simp only [handle_symlink] at hs
  split at hs
  · simp [injectedSyscalls, effsOf] at hs
  · split at hs
    · simp [injectedSyscalls, effsOf] at hs
    · split at hs
      · simp [injectedSyscalls, effsOf] at hs
      · split at hs
        · simp [injectedSyscalls, effsOf] at hs
        · split at hs
          · split at hs
            · repeat' split at hs
              all_goals simp [injectedSyscalls, effsOf, injectOf, apply_ite] at hs
            · exact symlink_reinject_symTarget _ _ _ _ hs
          · exact symlink_reinject_symTarget _ _ _ _ hs

theorem handle_symlinkat_symTarget (env : Env) (args : SymlinkatArgs) (s : Syscall)
    (hs : s ∈ injectedSyscalls (handle_symlinkat env args)) :
    Syscall.symTarget s = some args.target := by
  simp only [handle_symlinkat] at hs
  split at hs
  · simp [injectedSyscalls, effsOf] at hs
  · split at hs
    · simp [injectedSyscalls, effsOf] at hs
    · split at hs
      · simp [injectedSyscalls, effsOf] at hs
      · split at hs
        · simp [injectedSyscalls, effsOf] at hs
        · split at hs
          · split at hs
            · repeat' split at hs
              all_goals simp [injectedSyscalls, effsOf, injectOf, apply_ite] at hs
            · exact symlinkat_reinject_symTarget _ _ _ _ _ hs
          · exact symlinkat_reinject_symTarget _ _ _ _ _ hs

/-- C9: `symlink` and `symlinkat` never mutate the target string: on the
virtual branch the backend is invoked with the target exactly as read
from guest memory (the sole recorded VFS effect carries that byte string),
and on the rewrite branch every re-injected syscall carries the original
target address unchanged — only the linkpath argument is ever
translated. -/
theorem symlink_target_preserved :
    (∀ (env : Env) (args : SymlinkArgs) (la ta : Addr) (lp tg : GPath) (vfs : Vfs)
        (tp : GPath),
      args.linkpath = some la → args.target = some ta →
      env.readMem la = Except.ok lp → env.readMem ta = Except.ok tg →
      env.resolve lp = some (vfs, tp) → vfs.is_virtual = true →
      effsOf (handle_symlink env args) = [.vfsSymlink tg lp]) ∧
    (∀ (env : Env) (args : SymlinkArgs) (s : Syscall),
      s ∈ injectedSyscalls (handle_symlink env args) →
      Syscall.symTarget s = some args.target) ∧
    (∀ (env : Env) (args : SymlinkatArgs) (la ta : Addr) (lp tg : GPath) (vfs : Vfs)
        (tp : GPath),
      args.linkpath = some la → args.target = some ta →
      env.readMem la = Except.ok lp → env.readMem ta = Except.ok tg →
      env.resolve lp = some (vfs, tp) → vfs.is_virtual = true →
      effsOf (handle_symlinkat env args) = [.vfsSymlink tg lp]) ∧
    (∀ (env : Env) (args : SymlinkatArgs) (s : Syscall),
      s ∈ injectedSyscalls (handle_symlinkat env args) →
      Syscall.symTarget s = some args.target) := by
  refine ⟨?_, handle_symlink_symTarget, ?_, handle_symlinkat_symTarget⟩
  · intro env args la ta lp tg vfs tp hla hta hreadl hreadt hres hvirt
    simp only [handle_symlink, hla, hta, hreadl, hreadt, hres, hvirt, if_true]
    rcases h2 : vfs.symlink tg lp with e | u <;> simp [h2, effsOf]
  · intro env args la ta lp tg vfs tp hla hta hreadl hreadt hres hvirt
    simp only [handle_symlinkat, hla, hta, hreadl, hreadt, hres, hvirt, if_true]
    rcases h2 : vfs.symlink tg lp with e | u <;> simp [h2, effsOf]

theorem symlink_target_preserved_w :
    (effsOf (handle_symlink (mkEnv vfsVirtOk [47] [47, 110]) ⟨some 32, some 64⟩) =
      [Eff.vfsSymlink [47, 110] [47, 110]]) ∧
    (Syscall.symTarget (Syscall.symlink (some 32) (some 1000)) = some (some 32)) :=
  ⟨symlink_target_preserved.1 (mkEnv vfsVirtOk [47] [47, 110]) ⟨some 32, some 64⟩
      64 32 [47, 110] [47, 110] vfsVirtOk [47] rfl rfl rfl rfl rfl rfl,
   symlink_target_preserved.2.1 (mkEnv vfsReal [47, 114] [47, 110]) ⟨some 32, some 64⟩
      (Syscall.symlink (some 32) (some 1000)) (by decide)⟩
